import Mathlib

/-!
Shallow embedding of the messka messaging server (`src/App.py`) and proofs
about its specification claims.

The Python program is a Flask/Socket.IO server backed by PostgreSQL.  We
embed its database tables as Lean lists of rows, its in-memory `users` and
`rooms` dictionaries as association lists, and each database operation or
socket handler as a pure state transformer.  Unique-constraint violations
(`psycopg2.errors.UniqueViolation`) are modelled by checking the constraint
predicate before the insert/update: the transformer returns the
rolled-back state together with the error outcome the Python code returns
from its `except UniqueViolation` branch.
-/

namespace Messka

/-! ## SHA-256 (used by `generate_chat_id`, which calls `hashlib.sha256`) -/

/-- `2^32`, the word modulus of SHA-256. -/
def pow32 : Nat := 4294967296

/-- Right rotation of a 32-bit word. -/
def rotr (n x : Nat) : Nat :=
  ((x >>> n) ||| ((x <<< (32 - n)) % pow32)) % pow32

/-- Trial-division primality on the small range the constants need. -/
def isPrime (n : Nat) : Bool :=
  n ≥ 2 && ((List.range n).drop 2).all (fun d => n % d != 0)

/-- The first `k` primes (the 64th prime, 311, is below 400). -/
def firstPrimes (k : Nat) : List Nat :=
  ((List.range 400).filter isPrime).take k

/-- Integer cube root by binary descent over the bits of the root. -/
def icbrt (n : Nat) : Nat :=
  (List.range 36).foldl (fun r i =>
    let c := r + (1 <<< (35 - i))
    if c * c * c ≤ n then c else r) 0

/-- Integer square root by binary descent over the bits of the root. -/
def isqrtW (n : Nat) : Nat :=
  (List.range 38).foldl (fun r i =>
    let c := r + (1 <<< (37 - i))
    if c * c ≤ n then c else r) 0

/-- SHA-256 round constants (FIPS 180-4): the first 32 bits of the
fractional parts of the cube roots of the first 64 primes, computed here
as `icbrt (p * 2^96) mod 2^32`. -/
def shaK : List Nat :=
  (firstPrimes 64).map (fun p => icbrt (p <<< 96) % pow32)

/-- SHA-256 initial hash values (FIPS 180-4): the first 32 bits of the
fractional parts of the square roots of the first 8 primes. -/
def shaH0 : List Nat :=
  (firstPrimes 8).map (fun p => isqrtW (p <<< 64) % pow32)

/-- Big-endian byte encoding of `x` on `n` bytes. -/
def toBytesBE : Nat → Nat → List Nat
  | 0, _ => []
  | n + 1, x => toBytesBE n (x / 256) ++ [x % 256]

/-- Big-endian word decoding of a byte list. -/
def bytesToWordBE (bs : List Nat) : Nat :=
  bs.foldl (fun acc b => acc * 256 + b) 0

/-- SHA-256 padding: `0x80`, zeros, then the 64-bit bit length. -/
def padMessage (msg : List Nat) : List Nat :=
  let len := msg.length
  let zeros := (119 - len % 64) % 64
  msg ++ [0x80] ++ List.replicate zeros 0 ++ toBytesBE 8 (8 * len)

def smallSigma0 (x : Nat) : Nat := (rotr 7 x) ^^^ (rotr 18 x) ^^^ (x >>> 3)
def smallSigma1 (x : Nat) : Nat := (rotr 17 x) ^^^ (rotr 19 x) ^^^ (x >>> 10)
def bigSigma0 (x : Nat) : Nat := (rotr 2 x) ^^^ (rotr 13 x) ^^^ (rotr 22 x)
def bigSigma1 (x : Nat) : Nat := (rotr 6 x) ^^^ (rotr 11 x) ^^^ (rotr 25 x)

/-- Extend the 16 message-schedule words to 64. -/
def extendW (w0 : Array Nat) : Array Nat :=
  (List.range 48).foldl
    (fun w _ =>
      let i := w.size
      let v := (smallSigma1 (w.getD (i - 2) 0) + w.getD (i - 7) 0 +
                smallSigma0 (w.getD (i - 15) 0) + w.getD (i - 16) 0) % pow32
      w.push v) w0

/-- The eight 32-bit working variables of SHA-256. -/
structure Hash8 where
  a : Nat
  b : Nat
  c : Nat
  d : Nat
  e : Nat
  f : Nat
  g : Nat
  h : Nat
deriving Repr, DecidableEq

/-- One SHA-256 compression round. -/
def shaRound (k w : Nat) (s : Hash8) : Hash8 :=
  let ch := (s.e &&& s.f) ^^^ ((s.e ^^^ 4294967295) &&& s.g)
  let maj := (s.a &&& s.b) ^^^ (s.a &&& s.c) ^^^ (s.b &&& s.c)
  let t1 := (s.h + bigSigma1 s.e + ch + k + w) % pow32
  let t2 := (bigSigma0 s.a + maj) % pow32
  ⟨(t1 + t2) % pow32, s.a, s.b, s.c, (s.d + t1) % pow32, s.e, s.f, s.g⟩

/-- Process one 64-byte block. -/
def processBlock (h0 : Hash8) (block : List Nat) : Hash8 :=
  let w16 : Array Nat :=
    (List.range 16).foldl
      (fun arr j => arr.push (bytesToWordBE ((block.drop (4 * j)).take 4))) #[]
  let w := extendW w16
  let s := (List.range 64).foldl
      (fun s i => shaRound (shaK.getD i 0) (w.getD i 0) s) h0
  ⟨(h0.a + s.a) % pow32, (h0.b + s.b) % pow32, (h0.c + s.c) % pow32,
   (h0.d + s.d) % pow32, (h0.e + s.e) % pow32, (h0.f + s.f) % pow32,
   (h0.g + s.g) % pow32, (h0.h + s.h) % pow32⟩

/-- The 64-byte block of `bs` starting at index `64 * i`. -/
def blockAt (bs : List Nat) (i : Nat) : List Nat :=
  (bs.drop (64 * i)).take 64

/-- Lowercase hex digit. -/
def hexDigitChar (n : Nat) : Char :=
  if n < 10 then Char.ofNat (48 + n) else Char.ofNat (87 + n)

/-- Lowercase 8-digit hex of a 32-bit word. -/
def toHexWord (x : Nat) : String :=
  String.mk ((List.range 8).map (fun i => hexDigitChar ((x >>> (4 * (7 - i))) % 16)))

/-- `hashlib.sha256(s.encode()).hexdigest()`: SHA-256 of the UTF-8 bytes of
`s`, as a lowercase hex string. -/
def sha256hex (s : String) : String :=
  let msg := s.toUTF8.toList.map (fun b => b.toNat)
  let padded := padMessage msg
  let h0 : Hash8 := ⟨shaH0.getD 0 0, shaH0.getD 1 0, shaH0.getD 2 0,
                     shaH0.getD 3 0, shaH0.getD 4 0, shaH0.getD 5 0,
                     shaH0.getD 6 0, shaH0.getD 7 0⟩
  let hf := (List.range (padded.length / 64)).foldl
      (fun h i => processBlock h (blockAt padded i)) h0
  toHexWord hf.a ++ toHexWord hf.b ++ toHexWord hf.c ++ toHexWord hf.d ++
  toHexWord hf.e ++ toHexWord hf.f ++ toHexWord hf.g ++ toHexWord hf.h

/-- `generate_chat_id` (App.py:188-190): sort the two ids, hash
`"{lo}-{hi}"` with SHA-256, keep the first 16 hex characters.
`sorted([u1, u2])` on two integers is `[min u1 u2, max u1 u2]`. -/
def generate_chat_id (user1_id user2_id : Nat) : String :=
  (sha256hex (toString (min user1_id user2_id) ++ "-" ++
              toString (max user1_id user2_id))).take 16

/-! ## Data model: the database tables (`init_db`, App.py:52-175) -/

/-- A row of the `users` table.  `socket_id`, `user_tag` and `session_token`
carry `UNIQUE` constraints.  `create_user` inserts all of them non-null, so
we model them as plain strings. -/
structure UserRow where
  id : Nat
  socket_id : String
  username : String
  user_tag : String
  avatar : String
  session_token : String
deriving Repr, DecidableEq

/-- A row of the `private_chats` table: `chat_id` is `UNIQUE`, and
`UNIQUE(user1_id, user2_id)` holds for the ordered pair. -/
structure ChatRow where
  chat_id : String
  user1_id : Nat
  user2_id : Nat
deriving Repr, DecidableEq

/-- A row of the `private_messages` table (the columns the embedded
handlers touch). -/
structure PMRow where
  id : Nat
  chat_id : String
  sender_id : Nat
  receiver_id : Nat
  message_text : String
  message_type : String
deriving Repr, DecidableEq

/-- A row of the `favorites` table.  Exactly the nullable columns the code
inserts; `UNIQUE (user_id, message_id)` and
`UNIQUE (user_id, private_message_id)` are the two named constraints. -/
structure FavRow where
  id : Nat
  user_id : Nat
  message_id : Option Nat
  private_message_id : Option Nat
  chat_id : Option String
deriving Repr, DecidableEq

/-- The `users` table plus its `SERIAL` id counter. -/
structure UsersDB where
  rows : List UserRow
  nextId : Nat
deriving Repr, DecidableEq

/-- The `favorites` table plus its `SERIAL` id counter. -/
structure FavDB where
  favorites : List FavRow
  nextFavId : Nat
deriving Repr, DecidableEq

/-- Python truthiness of an optional integer (`if message_id:`):
`None` and `0` are falsy. -/
def pyTruthyNat : Option Nat → Bool
  | none => false
  | some n => n != 0

/-- Python truthiness of an optional string (`if not chat_id: return`):
`None` and `''` are falsy. -/
def pyTruthyStr : Option String → Bool
  | none => false
  | some s => s != ""

/-! ## Identity operations (`create_user`, `update_user`, App.py:244-303) -/

/-- Outcome dictionary of `create_user` / `update_user`: `{'success': True,
'user': row}`, `{'error': 'tag_taken'}`, or `{'error': 'user_not_found'}`. -/
inductive RegisterResult where
  | ok (user : UserRow)
  | tagTaken
  | userNotFound
deriving Repr, DecidableEq

/-- A fresh `INSERT INTO users` raises `UniqueViolation` exactly when an
existing row already holds one of the three unique column values. -/
def userInsertViolation (rows : List UserRow) (socket tag token : String) : Bool :=
  rows.any (fun r =>
    r.socket_id == socket || r.user_tag == tag || r.session_token == token)

/-- `create_user` (App.py:244-268): insert the new user; on
`UniqueViolation` roll back and return the `tag_taken` outcome. -/
def create_user (db : UsersDB) (socket username tag avatar token : String) :
    RegisterResult × UsersDB :=
  if userInsertViolation db.rows socket tag token then
    (.tagTaken, db)
  else
    let row : UserRow := ⟨db.nextId, socket, username, tag, avatar, token⟩
    (.ok row, ⟨db.rows ++ [row], db.nextId + 1⟩)

/-- `update_user` (App.py:270-303): look the user up by socket; update
name, tag and avatar; on `UniqueViolation` (the new tag equals another
row's tag) roll back and return the `tag_taken` outcome. -/
def update_user (db : UsersDB) (socket username tag avatar : String) :
    RegisterResult × UsersDB :=
  match db.rows.find? (fun r => r.socket_id == socket) with
  | none => (.userNotFound, db)
  | some old =>
    if db.rows.any (fun r => r.socket_id != socket && r.user_tag == tag) then
      (.tagTaken, db)
    else
      let updated : UserRow :=
        { old with username := username, user_tag := tag, avatar := avatar }
      (.ok updated,
       ⟨db.rows.map (fun r => if r.socket_id == socket then
          { r with username := username, user_tag := tag, avatar := avatar }
        else r), db.nextId⟩)

/-! ## Private-chat operations (App.py:342-388) -/

/-- The `SELECT chat_id FROM private_chats WHERE (user1_id, user2_id)
matches either orientation` lookup at the top of
`get_or_create_private_chat`. -/
def lookup_private_chat (chats : List ChatRow) (user1_id user2_id : Nat) :
    Option String :=
  (chats.find? (fun r =>
      (r.user1_id == user1_id && r.user2_id == user2_id) ||
      (r.user1_id == user2_id && r.user2_id == user1_id))).map (·.chat_id)

/-- `INSERT INTO private_chats` fails exactly when the `chat_id UNIQUE` or
`UNIQUE(user1_id, user2_id)` constraint is violated. -/
def chat_insert_violation (chats : List ChatRow) (cid : String)
    (user1_id user2_id : Nat) : Bool :=
  chats.any (fun r =>
    r.chat_id == cid || (r.user1_id == user1_id && r.user2_id == user2_id))

/-- `get_or_create_private_chat` (App.py:342-374) with the `SELECT` and the
`INSERT` possibly observing different snapshots of the table: `chatsSel` is
the table at the `SELECT`, `chatsIns` the table at the `INSERT` (they differ
exactly when a concurrent writer commits between the two statements).  On an
insert failure the code rolls back, prints, and returns `None`. -/
def get_or_create_private_chat_at (chatsSel chatsIns : List ChatRow)
    (user1_id user2_id : Nat) : Option String × List ChatRow :=
  match lookup_private_chat chatsSel user1_id user2_id with
  | some cid => (some cid, chatsIns)
  | none =>
    if chat_insert_violation chatsIns (generate_chat_id user1_id user2_id)
        user1_id user2_id then
      (none, chatsIns)
    else
      (some (generate_chat_id user1_id user2_id),
       chatsIns ++ [⟨generate_chat_id user1_id user2_id,
                     user1_id, user2_id⟩])

/-- `get_or_create_private_chat` run without interference: both statements
see the same table. -/
def get_or_create_private_chat (chats : List ChatRow)
    (user1_id user2_id : Nat) : Option String × List ChatRow :=
  get_or_create_private_chat_at chats chats user1_id user2_id

/-- `save_private_message` (App.py:376-388): plain insert returning the new
row. -/
def save_private_message (msgs : List PMRow) (nextPmId : Nat)
    (chat_id : String) (sender_id receiver_id : Nat)
    (msg_type text : String) : PMRow × List PMRow × Nat :=
  let row : PMRow := ⟨nextPmId, chat_id, sender_id, receiver_id, text, msg_type⟩
  (row, msgs ++ [row], nextPmId + 1)

/-! ## Favorites operations (App.py:513-571) -/

/-- Outcome dictionary of `add_to_favorites`: success with the new row id,
`already_favorite`, or `no_message_id`. -/
inductive FavResult where
  | ok (favorite_id : Nat)
  | alreadyFavorite
  | noMessageId
deriving Repr, DecidableEq

/-- `add_to_favorites` (App.py:513-546).  `if message_id:` wins over
`elif private_message_id:`; inserting a row whose non-null
`(user_id, message_id)` (resp. `(user_id, private_message_id)`) pair
already exists raises `UniqueViolation`, caught as `already_favorite`. -/
def add_to_favorites (db : FavDB) (user_id : Nat)
    (message_id private_message_id : Option Nat) (chat_id : Option String) :
    FavResult × FavDB :=
  if pyTruthyNat message_id then
    if db.favorites.any (fun r =>
        r.user_id == user_id && r.message_id == message_id) then
      (.alreadyFavorite, db)
    else
      (.ok db.nextFavId,
       ⟨db.favorites ++ [⟨db.nextFavId, user_id, message_id, none, chat_id⟩],
        db.nextFavId + 1⟩)
  else if pyTruthyNat private_message_id then
    if db.favorites.any (fun r =>
        r.user_id == user_id && r.private_message_id == private_message_id) then
      (.alreadyFavorite, db)
    else
      (.ok db.nextFavId,
       ⟨db.favorites ++
          [⟨db.nextFavId, user_id, none, private_message_id, chat_id⟩],
        db.nextFavId + 1⟩)
  else
    (.noMessageId, db)

/-- `remove_from_favorites` (App.py:548-571): `DELETE` the matching rows and
return `rowcount > 0`; with neither id, return `False`. -/
def remove_from_favorites (db : FavDB) (user_id : Nat)
    (message_id private_message_id : Option Nat) : Bool × FavDB :=
  if pyTruthyNat message_id then
    let kept := db.favorites.filter (fun r =>
      !(r.user_id == user_id && r.message_id == message_id))
    (decide (kept.length < db.favorites.length), ⟨kept, db.nextFavId⟩)
  else if pyTruthyNat private_message_id then
    let kept := db.favorites.filter (fun r =>
      !(r.user_id == user_id && r.private_message_id == private_message_id))
    (decide (kept.length < db.favorites.length), ⟨kept, db.nextFavId⟩)
  else
    (false, db)

/-! ## In-memory state: `users` and `rooms` dictionaries (App.py:748-749) -/

/-- The value stored in the in-memory `users` dict:
`{'id', 'username', 'tag', 'avatar', 'token'}`. -/
structure ClientData where
  id : Nat
  username : String
  tag : String
  avatar : String
  token : String
deriving Repr, DecidableEq

/-- `users = {}`: socket id → client data, as an association list in
insertion order. -/
abbrev UsersReg := List (String × ClientData)

/-- `rooms = {}`: chat id → Python *list* of socket ids, as an association
list in insertion order. -/
abbrev Rooms := List (String × List String)

/-- The membership list of a room, `rooms[chat_id]`, empty when the key is
absent. -/
def roomMembers (rooms : Rooms) (cid : String) : List String :=
  ((rooms.find? (fun p => p.1 == cid)).map Prod.snd).getD []

/-- Whether `sid` occurs in the membership list of any room. -/
def memberAnywhere (rooms : Rooms) (sid : String) : Bool :=
  rooms.any (fun p => p.2.contains sid)

/-- The join pattern shared by `handle_start_private_chat` (App.py:967-969)
and `handle_join_private_chat` (App.py:1147-1149):
`if chat_id not in rooms: rooms[chat_id] = []` then
`rooms[chat_id].append(request.sid)`. -/
def joinRoom (rooms : Rooms) (cid sid : String) : Rooms :=
  if rooms.any (fun p => p.1 == cid) then
    rooms.map (fun p => if p.1 == cid then (p.1, p.2 ++ [sid]) else p)
  else
    rooms ++ [(cid, [sid])]

/-- The leave pattern of `handle_leave_private_chat` (App.py:1158-1159):
`if chat_id in rooms and request.sid in rooms[chat_id]:
rooms[chat_id].remove(request.sid)` — `list.remove` deletes the first
occurrence only, and the room is kept even when it becomes empty. -/
def leaveRoom (rooms : Rooms) (cid sid : String) : Rooms :=
  rooms.map (fun p =>
    if p.1 == cid && p.2.contains sid then (p.1, p.2.erase sid) else p)

/-- `handle_join_private_chat` (App.py:1140-1149); note there is no
registration check: any connection may join. -/
def handle_join_private_chat (rooms : Rooms) (sid : String)
    (chat_id : Option String) : Rooms :=
  if pyTruthyStr chat_id then joinRoom rooms (chat_id.getD "") sid else rooms

/-- `handle_leave_private_chat` (App.py:1151-1159). -/
def handle_leave_private_chat (rooms : Rooms) (sid : String)
    (chat_id : Option String) : Rooms :=
  if pyTruthyStr chat_id then leaveRoom rooms (chat_id.getD "") sid else rooms

/-- The volatile server state touched by `handle_disconnect`. -/
structure MemState where
  users : UsersReg
  rooms : Rooms
deriving Repr, DecidableEq

/-- The room-pruning loop of `handle_disconnect` (App.py:764-768): remove
one occurrence of `sid` from each room that lists it, and delete rooms
that become empty. -/
def disconnectRooms (rooms : Rooms) (sid : String) : Rooms :=
  rooms.filterMap (fun p =>
    if p.2.contains sid then
      let m := p.2.erase sid
      if m.isEmpty then none else some (p.1, m)
    else some p)

/-- `handle_disconnect` (App.py:760-771): `users.pop(request.sid, None)`;
rooms are pruned only inside `if user_data:` — an unregistered connection's
memberships are left untouched. -/
def handle_disconnect (st : MemState) (sid : String) : MemState :=
  match st.users.lookup sid with
  | none => st
  | some _ =>
    ⟨st.users.filter (fun p => p.1 != sid), disconnectRooms st.rooms sid⟩

/-! ## Socket handlers -/

/-- Python `str.strip()`: drop leading and trailing whitespace. -/
def pyStrip (s : String) : String :=
  String.mk
    (((s.data.dropWhile Char.isWhitespace).reverse.dropWhile
        Char.isWhitespace).reverse)

/-- Python `str.lower()` on the ASCII range. -/
def pyLower (s : String) : String :=
  String.mk (s.data.map Char.toLower)

/-- The server state the private-message send path reads and writes. -/
structure ChatState where
  users : UsersReg
  private_chats : List ChatRow
  private_messages : List PMRow
  nextPmId : Nat
deriving Repr, DecidableEq

/-- The `new_private_message` payload fields the embedding tracks. -/
structure PMEvent where
  id : Nat
  chat_id : String
  sender_id : Nat
  text : String
deriving Repr, DecidableEq

/-- `handle_send_private_message` (App.py:1015-1061): require a registered
sender, a truthy chat id and a non-empty stripped message; `SELECT
user1_id, user2_id FROM private_chats WHERE chat_id = …`; if the row
exists, compute `receiver_id = user2_id if user1_id == sender else
user1_id`, persist via `save_private_message`, and emit to the room.  The
code never checks that the sender is `user1_id` or `user2_id`. -/
def handle_send_private_message (st : ChatState) (sid : String)
    (chat_id : Option String) (message : String) :
    ChatState × Option PMEvent :=
  match st.users.lookup sid with
  | none => (st, none)
  | some u =>
    let msg := pyStrip message
    if !(pyTruthyStr chat_id) || msg == "" then (st, none)
    else
      let cid := chat_id.getD ""
      match st.private_chats.find? (fun r => r.chat_id == cid) with
      | none => (st, none)
      | some chat =>
        let receiver_id :=
          if chat.user1_id == u.id then chat.user2_id else chat.user1_id
        let saved := save_private_message st.private_messages st.nextPmId cid
            u.id receiver_id "text" msg
        ({ st with private_messages := saved.2.1, nextPmId := saved.2.2 },
         some ⟨saved.1.id, cid, u.id, msg⟩)

/-- `get_user_by_tag` (App.py:201-208). -/
def get_user_by_tag (table : List UserRow) (tag : String) : Option UserRow :=
  table.find? (fun r => r.user_tag == tag)

/-- The server state `handle_start_private_chat` touches. -/
structure StartState where
  users : UsersReg
  usersTable : List UserRow
  private_chats : List ChatRow
  rooms : Rooms
deriving Repr, DecidableEq

/-- The events `handle_start_private_chat` can emit:
a `private_chat_error` with its error code, or `private_chat_started`. -/
inductive StartEvent where
  | chatError (code : String)
  | chatStarted (chat_id : String)
deriving Repr, DecidableEq

/-- `handle_start_private_chat` (App.py:940-982): require registration;
lower-case and strip the target tag; resolve the target user; refuse
`self_chat` when the target id equals the caller's id; otherwise
`get_or_create_private_chat`, join the room and emit
`private_chat_started`. -/
def handle_start_private_chat (st : StartState) (sid : String)
    (tag : String) : StartState × Option StartEvent :=
  match st.users.lookup sid with
  | none => (st, none)
  | some u =>
    let target_tag := pyStrip (pyLower tag)
    if target_tag == "" then (st, some (.chatError "empty_tag"))
    else
      match get_user_by_tag st.usersTable target_tag with
      | none => (st, some (.chatError "user_not_found"))
      | some target =>
        if target.id == u.id then (st, some (.chatError "self_chat"))
        else
          match get_or_create_private_chat st.private_chats u.id target.id with
          | (none, chats') =>
            ({ st with private_chats := chats' },
             some (.chatError "chat_creation_failed"))
          | (some cid, chats') =>
            ({ st with private_chats := chats',
                       rooms := joinRoom st.rooms cid sid },
             some (.chatStarted cid))

/-- The server state `handle_toggle_favorite` touches. -/
structure ToggleState where
  users : UsersReg
  favdb : FavDB
deriving Repr, DecidableEq

/-- The `favorite_toggled` payload: `{'message_id', 'is_favorite'}`. -/
structure FavoriteToggled where
  message_id : Nat
  is_favorite : Bool
deriving Repr, DecidableEq

/-- `handle_toggle_favorite` (App.py:1252-1279): require registration and a
truthy `message_id`; dispatch `add_to_favorites` / `remove_from_favorites`
on `chat_id == 'general'` and the requested `is_favorite`; then emit
`favorite_toggled` echoing the *requested* `message_id` and `is_favorite`,
discarding the operation's result. -/
def handle_toggle_favorite (st : ToggleState) (sid : String)
    (message_id : Option Nat) (chat_id : Option String)
    (is_favorite : Bool) : ToggleState × Option FavoriteToggled :=
  match st.users.lookup sid with
  | none => (st, none)
  | some u =>
    if !(pyTruthyNat message_id) then (st, none)
    else
      let mid := message_id.getD 0
      let favdb' :=
        if chat_id == some "general" then
          if is_favorite then
            (add_to_favorites st.favdb u.id (some mid) none chat_id).2
          else
            (remove_from_favorites st.favdb u.id (some mid) none).2
        else
          if is_favorite then
            (add_to_favorites st.favdb u.id none (some mid) chat_id).2
          else
            (remove_from_favorites st.favdb u.id none (some mid)).2
      ({ st with favdb := favdb' }, some ⟨mid, is_favorite⟩)

/-! ## Theorems -/

/-- C3: `generate_chat_id(user1_id, user2_id)` is a pure, deterministic
function (a total Lean function of its two arguments) and is
order-independent: swapping the two user ids yields the same chat id, so
the same two users always derive the same room id regardless of which user
initiates. -/
theorem generate_chat_id_comm (a b : Nat) :
    generate_chat_id a b = generate_chat_id b a := by
  unfold generate_chat_id
  rw [Nat.min_comm, Nat.max_comm]

/-- C1: a registration attempt that hits the handle uniqueness constraint
gets the `tag_taken` outcome and leaves the users table unchanged, and of
two attempts claiming the same handle exactly one succeeds: starting from
a table where handle `t` is free, the first `create_user` succeeds; a
second `create_user` claiming `t` returns `tag_taken` with the table
exactly as the first attempt left it; and an `update_user` by any other
bound user switching to `t` also returns `tag_taken` with the table
unchanged. -/
theorem register_handle_conflict
    (db : UsersDB) (s1 u1 t a1 tok1 s2 u2 a2 tok2 su uu au : String)
    (hfree : userInsertViolation db.rows s1 t tok1 = false)
    (hne : su ≠ s1)
    (hbound : ((create_user db s1 u1 t a1 tok1).2.rows.find?
        (fun r => r.socket_id == su)).isSome) :
    (create_user db s1 u1 t a1 tok1).1 =
      .ok ⟨db.nextId, s1, u1, t, a1, tok1⟩ ∧
    create_user (create_user db s1 u1 t a1 tok1).2 s2 u2 t a2 tok2 =
      (.tagTaken, (create_user db s1 u1 t a1 tok1).2) ∧
    update_user (create_user db s1 u1 t a1 tok1).2 su uu t au =
      (.tagTaken, (create_user db s1 u1 t a1 tok1).2) := by
  have hrow : (create_user db s1 u1 t a1 tok1).2.rows =
      db.rows ++ [⟨db.nextId, s1, u1, t, a1, tok1⟩] := by
    simp [create_user, hfree]
  have hvio2 : userInsertViolation (create_user db s1 u1 t a1 tok1).2.rows
      s2 t tok2 = true := by
    rw [hrow]
    simp [userInsertViolation]
  have hvio3 : (create_user db s1 u1 t a1 tok1).2.rows.any
      (fun r => r.socket_id != su && r.user_tag == t) = true := by
    rw [hrow]
    rw [List.any_eq_true]
    refine ⟨⟨db.nextId, s1, u1, t, a1, tok1⟩, ?_, ?_⟩
    · simp
    · simp [bne_iff_ne]
      exact fun h => hne h.symm
  obtain ⟨old, hold⟩ := Option.isSome_iff_exists.mp hbound
  refine ⟨?_, ?_, ?_⟩
  · simp [create_user, hfree]
  · generalize hg : (create_user db s1 u1 t a1 tok1).2 = db1 at hvio2 ⊢
    simp [create_user, hvio2]
  · generalize hg : (create_user db s1 u1 t a1 tok1).2 = db1 at hold hvio3 ⊢
    simp [update_user, hold, hvio3]

/-- Witness for C1 at a concrete table: handle `alice` is free, socket
`s2` is bound after the first insert, and the three conclusions hold. -/
theorem register_handle_conflict_witness :
    (userInsertViolation (UsersDB.mk [⟨0, "s2", "B", "bob", "d", "t0"⟩] 1).rows
        "s1" "alice" "t1" = false ∧
     "s2" ≠ "s1" ∧
     ((create_user ⟨[⟨0, "s2", "B", "bob", "d", "t0"⟩], 1⟩
         "s1" "A" "alice" "d" "t1").2.rows.find?
        (fun r => r.socket_id == "s2")).isSome) ∧
    ((create_user ⟨[⟨0, "s2", "B", "bob", "d", "t0"⟩], 1⟩
        "s1" "A" "alice" "d" "t1").1 =
      .ok ⟨1, "s1", "A", "alice", "d", "t1"⟩ ∧
    create_user (create_user ⟨[⟨0, "s2", "B", "bob", "d", "t0"⟩], 1⟩
        "s1" "A" "alice" "d" "t1").2 "s3" "C" "alice" "d" "t3" =
      (.tagTaken, (create_user ⟨[⟨0, "s2", "B", "bob", "d", "t0"⟩], 1⟩
        "s1" "A" "alice" "d" "t1").2) ∧
    update_user (create_user ⟨[⟨0, "s2", "B", "bob", "d", "t0"⟩], 1⟩
        "s1" "A" "alice" "d" "t1").2 "s2" "B" "alice" "d" =
      (.tagTaken, (create_user ⟨[⟨0, "s2", "B", "bob", "d", "t0"⟩], 1⟩
        "s1" "A" "alice" "d" "t1").2)) :=
  ⟨⟨by decide, by decide, by decide⟩,
   register_handle_conflict ⟨[⟨0, "s2", "B", "bob", "d", "t0"⟩], 1⟩
     "s1" "A" "alice" "d" "t1" "s3" "C" "d" "t3" "s2" "B" "d"
     (by decide) (by decide) (by decide)⟩

/-- C2 counterexample: when the lookup sees an empty table but a concurrent
caller's row for the pair `(1, 2)` has committed before the insert, the
insert conflicts and `get_or_create_private_chat` returns `None` — not the
winner's room id as the claim states. -/
theorem get_or_create_race_counterexample :
    (get_or_create_private_chat_at []
        [⟨generate_chat_id 1 2, 1, 2⟩] 1 2).1 = none := by
  simp [get_or_create_private_chat_at, lookup_private_chat,
        chat_insert_violation]

/-- C2 amended: the lost-race insert conflict is not re-read; the loser
gets `None` back (no duplicate-room exception propagates and the winner's
row is untouched), while absent interference the operation is idempotent:
after a call returns a chat id, calling again returns the same id and the
same table. -/
theorem get_or_create_private_chat_spec
    (chatsSel chatsIns chats chats' : List ChatRow) (u1 u2 : Nat)
    (cid : String)
    (hsel : lookup_private_chat chatsSel u1 u2 = none)
    (hvio : chat_insert_violation chatsIns (generate_chat_id u1 u2) u1 u2 =
      true)
    (hseq : get_or_create_private_chat chats u1 u2 = (some cid, chats')) :
    get_or_create_private_chat_at chatsSel chatsIns u1 u2 =
      (none, chatsIns) ∧
    get_or_create_private_chat chats' u1 u2 = (some cid, chats') := by
  constructor
  · simp [get_or_create_private_chat_at, hsel, hvio]
  · unfold get_or_create_private_chat get_or_create_private_chat_at at hseq
    split at hseq
    case h_1 c heq =>
      injection hseq with h1 h2
      injection h1 with hc
      subst hc h2
      unfold get_or_create_private_chat get_or_create_private_chat_at
      rw [heq]
    case h_2 heq =>
      split at hseq
      case isTrue hv =>
        injection hseq with h1 h2
        injection h1
      case isFalse hv =>
        injection hseq with h1 h2
        have hc := Option.some.inj h1
        subst hc h2
        have hfind : List.find? (fun r =>
            (r.user1_id == u1 && r.user2_id == u2) ||
            (r.user1_id == u2 && r.user2_id == u1)) chats = none := by
          rw [lookup_private_chat] at heq
          exact Option.map_eq_none'.mp heq
        unfold get_or_create_private_chat get_or_create_private_chat_at
        rw [lookup_private_chat, List.find?_append, hfind]
        simp

/-- Witness for C2: the raced loser at the concrete pair `(1, 2)` and the
sequential idempotence starting from the empty table. -/
theorem get_or_create_private_chat_spec_witness :
    (lookup_private_chat [] 1 2 = none ∧
     chat_insert_violation [⟨generate_chat_id 1 2, 1, 2⟩]
        (generate_chat_id 1 2) 1 2 = true ∧
     get_or_create_private_chat [] 1 2 =
        (some (generate_chat_id 1 2), [⟨generate_chat_id 1 2, 1, 2⟩])) ∧
    (get_or_create_private_chat_at [] [⟨generate_chat_id 1 2, 1, 2⟩] 1 2 =
      (none, [⟨generate_chat_id 1 2, 1, 2⟩]) ∧
    get_or_create_private_chat [⟨generate_chat_id 1 2, 1, 2⟩] 1 2 =
      (some (generate_chat_id 1 2), [⟨generate_chat_id 1 2, 1, 2⟩])) :=
  ⟨⟨rfl, by simp [chat_insert_violation], rfl⟩,
   get_or_create_private_chat_spec [] [⟨generate_chat_id 1 2, 1, 2⟩] []
     [⟨generate_chat_id 1 2, 1, 2⟩] 1 2 (generate_chat_id 1 2)
     rfl (by simp [chat_insert_violation]) rfl⟩

/-- C4 counterexample: a registered connection whose user id `3` is not a
member of room `"c"` (whose members are `1` and `2`) sends a message, and
the handler persists it anyway — with `receiver_id = user1_id = 1` —
instead of rejecting the send. -/
theorem send_nonmember_counterexample :
    (handle_send_private_message
        ⟨[("s", ⟨3, "Carol", "carol", "default", "tok"⟩)],
         [⟨"c", 1, 2⟩], [], 1⟩ "s" (some "c") "hi").1.private_messages =
      [⟨1, "c", 3, 1, "hi", "text"⟩] ∧
    (3 : Nat) ≠ 1 ∧ (3 : Nat) ≠ 2 := by
  refine ⟨?_, by decide, by decide⟩
  rfl

/-- C4 amended: the send path persists a message exactly when the sender is
registered, the chat id and stripped message are non-empty, and the target
room row exists — sender membership is never checked.  The persisted
receiver is `user2_id` when the sender's id equals `user1_id` and
`user1_id` otherwise; hence when the sender *is* one of the two members of
a two-distinct-member room the receiver is the unique other member, but a
non-member's message is also persisted (with receiver `user1_id`).  When
the room row does not exist, nothing is persisted. -/
theorem send_private_message_spec
    (st : ChatState) (sid cid message : String) (u : ClientData)
    (chat : ChatRow)
    (hu : st.users.lookup sid = some u)
    (hcid : cid ≠ "")
    (hmsg : pyStrip message ≠ "")
    (hchat : st.private_chats.find? (fun r => r.chat_id == cid) =
      some chat) :
    handle_send_private_message st sid (some cid) message =
      ({ st with
          private_messages := st.private_messages ++
            [⟨st.nextPmId, cid, u.id,
              if chat.user1_id == u.id then chat.user2_id
              else chat.user1_id,
              pyStrip message, "text"⟩],
          nextPmId := st.nextPmId + 1 },
       some ⟨st.nextPmId, cid, u.id, pyStrip message⟩) ∧
    (u.id = chat.user1_id →
      (if chat.user1_id == u.id then chat.user2_id else chat.user1_id) =
        chat.user2_id) ∧
    (u.id = chat.user2_id → chat.user1_id ≠ chat.user2_id →
      (if chat.user1_id == u.id then chat.user2_id else chat.user1_id) =
        chat.user1_id) ∧
    (∀ st2 : ChatState, ∀ sid2 u2, st2.users.lookup sid2 = some u2 →
      st2.private_chats.find? (fun r => r.chat_id == cid) = none →
      handle_send_private_message st2 sid2 (some cid) message =
        (st2, none)) := by
  refine ⟨?_, ?_, ?_, ?_⟩
  · rw [handle_send_private_message, hu]
    simp only [pyTruthyStr, Option.getD_some]
    rw [if_neg (by simp [hcid, hmsg]), hchat]
    rfl
  · intro h
    rw [if_pos (by simp [h])]
  · intro h hne
    rw [if_neg (by simp; exact fun hq => hne (by rw [hq, h]))]
  · intro st2 sid2 u2 hu2 hnone
    rw [handle_send_private_message, hu2]
    simp only [pyTruthyStr, Option.getD_some]
    rw [if_neg (by simp [hcid, hmsg]), hnone]

/-- Witness for C4 at the concrete room `("c", 1, 2)` with the member
sender `1`. -/
theorem send_private_message_spec_witness :
    ((ChatState.mk [("s", ⟨1, "A", "a", "d", "t"⟩)] [⟨"c", 1, 2⟩] [] 1).users.lookup
        "s" = some ⟨1, "A", "a", "d", "t"⟩ ∧
     ("c" : String) ≠ "" ∧ pyStrip "hi" ≠ "" ∧
     (ChatState.mk [("s", ⟨1, "A", "a", "d", "t"⟩)] [⟨"c", 1, 2⟩] [] 1).private_chats.find?
        (fun r => r.chat_id == "c") = some ⟨"c", 1, 2⟩) ∧
    handle_send_private_message
        ⟨[("s", ⟨1, "A", "a", "d", "t"⟩)], [⟨"c", 1, 2⟩], [], 1⟩
        "s" (some "c") "hi" =
      ({ ChatState.mk [("s", ⟨1, "A", "a", "d", "t"⟩)] [⟨"c", 1, 2⟩] [] 1 with
          private_messages :=
            [] ++ [⟨1, "c", 1,
              if (1 : Nat) == 1 then 2 else 1, pyStrip "hi", "text"⟩],
          nextPmId := 2 },
       some ⟨1, "c", 1, pyStrip "hi"⟩) :=
  ⟨⟨by decide, by decide, by decide, by decide⟩,
   (send_private_message_spec
      ⟨[("s", ⟨1, "A", "a", "d", "t"⟩)], [⟨"c", 1, 2⟩], [], 1⟩
      "s" "c" "hi" ⟨1, "A", "a", "d", "t"⟩ ⟨"c", 1, 2⟩
      (by decide) (by decide) (by decide) (by decide)).1⟩

/-- Looking a key up after filtering it out always fails. -/
theorem lookup_filter_ne (l : UsersReg) (sid : String) :
    (l.filter (fun p => p.1 != sid)).lookup sid = none := by
  induction l with
  | nil => rfl
  | cons p l ih =>
    by_cases h : p.1 = sid
    · simp [List.filter_cons, h, ih]
    · have hbe : (sid == p.1) = false := by
        simp only [beq_eq_false_iff_ne, ne_eq]
        exact fun he => h he.symm
      rw [List.filter_cons, if_pos (by simp [bne_iff_ne, h])]
      simp [List.lookup, hbe, ih]

/-- C5 counterexample: two disconnects that leave the connection inside a
room.  First, a connection that joined room `"c"` without registering: its
disconnect leaves the state (including its room membership) untouched.
Second, a registered connection that joined room `"c"` twice: the pruning
loop removes only one occurrence, so after the disconnect it is still a
member. -/
theorem disconnect_counterexample :
    handle_disconnect ⟨[], [("c", ["s"])]⟩ "s" = ⟨[], [("c", ["s"])]⟩ ∧
    memberAnywhere (handle_disconnect ⟨[], [("c", ["s"])]⟩ "s").rooms
      "s" = true ∧
    handle_disconnect ⟨[("s", ⟨1, "A", "a", "d", "t"⟩)],
        [("c", ["s", "s"])]⟩ "s" = ⟨[], [("c", ["s"])]⟩ ∧
    memberAnywhere (handle_disconnect ⟨[("s", ⟨1, "A", "a", "d", "t"⟩)],
        [("c", ["s", "s"])]⟩ "s").rooms "s" = true := by
  refine ⟨rfl, rfl, rfl, rfl⟩

/-- C5 amended: after `handle_disconnect`, the connection id is always
absent from the in-memory `users` registry; and when the connection was
registered and occurred at most once in each room's membership list, it is
also absent from every room in the `rooms` map.  (An unregistered
connection's room memberships are not pruned, and only one occurrence per
room is removed — the counterexample shows both gaps.) -/
theorem disconnect_removes_connection
    (st : MemState) (sid : String) (d : ClientData)
    (hreg : st.users.lookup sid = some d)
    (honce : ∀ p ∈ st.rooms, p.2.count sid ≤ 1) :
    (handle_disconnect st sid).users.lookup sid = none ∧
    memberAnywhere (handle_disconnect st sid).rooms sid = false := by
  rw [handle_disconnect, hreg]
  constructor
  · exact lookup_filter_ne st.users sid
  · rw [memberAnywhere, List.any_eq_false]
    intro p hp
    rw [disconnectRooms] at hp
    obtain ⟨q, hq, hfq⟩ := List.mem_filterMap.mp hp
    by_cases hc : q.2.contains sid
    · rw [if_pos hc] at hfq
      by_cases he : (q.2.erase sid).isEmpty
      · rw [if_pos he] at hfq
        exact absurd hfq (by simp)
      · rw [if_neg he] at hfq
        have hp2 : p.2 = q.2.erase sid := by
          rw [← Option.some.inj hfq]
        have hcount : q.2.count sid ≤ 1 := honce q hq
        have hmem : sid ∈ q.2 := List.elem_iff.mp hc
        have hpos : 0 < q.2.count sid := List.count_pos_iff.mpr hmem
        have hz : (q.2.erase sid).count sid = 0 := by
          rw [List.count_erase_self]
          omega
        have : sid ∉ p.2 := by
          rw [hp2]
          exact List.count_eq_zero.mp hz
        simpa [List.contains, List.elem_iff]
    · rw [if_neg hc] at hfq
      have hpq : p = q := (Option.some.inj hfq).symm
      rw [hpq]
      exact hc

/-- Witness for C5 at a concrete state: a registered connection listed once
in each of two rooms. -/
theorem disconnect_removes_connection_witness :
    ((MemState.mk [("s", ⟨1, "A", "a", "d", "t"⟩)]
        [("c", ["s"]), ("e", ["x", "s"])]).users.lookup "s" =
      some ⟨1, "A", "a", "d", "t"⟩ ∧
     ∀ p ∈ (MemState.mk [("s", ⟨1, "A", "a", "d", "t"⟩)]
        [("c", ["s"]), ("e", ["x", "s"])]).rooms, p.2.count "s" ≤ 1) ∧
    ((handle_disconnect ⟨[("s", ⟨1, "A", "a", "d", "t"⟩)],
        [("c", ["s"]), ("e", ["x", "s"])]⟩ "s").users.lookup "s" = none ∧
     memberAnywhere (handle_disconnect ⟨[("s", ⟨1, "A", "a", "d", "t"⟩)],
        [("c", ["s"]), ("e", ["x", "s"])]⟩ "s").rooms "s" = false) :=
  ⟨⟨by decide, by decide⟩,
   disconnect_removes_connection
     ⟨[("s", ⟨1, "A", "a", "d", "t"⟩)], [("c", ["s"]), ("e", ["x", "s"])]⟩
     "s" ⟨1, "A", "a", "d", "t"⟩ (by decide) (by decide)⟩

/-- C6: a `start_private_chat` request whose resolved target user has the
caller's own id is rejected with the explicit `self_chat` error event and
the whole state — in particular the `private_chats` table — is unchanged:
`get_or_create_private_chat` is never reached and no degenerate
single-user room is created. -/
theorem start_private_chat_self_rejected
    (st : StartState) (sid tag : String) (u : ClientData)
    (target : UserRow)
    (hu : st.users.lookup sid = some u)
    (htag : pyStrip (pyLower tag) ≠ "")
    (hfind : get_user_by_tag st.usersTable (pyStrip (pyLower tag)) =
      some target)
    (hself : target.id = u.id) :
    handle_start_private_chat st sid tag =
      (st, some (.chatError "self_chat")) := by
  rw [handle_start_private_chat, hu]
  simp only
  rw [if_neg (by simp [htag]), hfind]
  simp only
  rw [if_pos (by simp [hself])]

/-- Witness for C6: the registered user `alice` (id 7) asks to start a chat
with her own tag. -/
theorem start_private_chat_self_rejected_witness :
    ((StartState.mk [("s", ⟨7, "A", "alice", "d", "t"⟩)]
        [⟨7, "sock", "A", "alice", "d", "t"⟩] [] []).users.lookup "s" =
      some ⟨7, "A", "alice", "d", "t"⟩ ∧
     pyStrip (pyLower "alice") ≠ "" ∧
     get_user_by_tag [⟨7, "sock", "A", "alice", "d", "t"⟩]
        (pyStrip (pyLower "alice")) =
       some ⟨7, "sock", "A", "alice", "d", "t"⟩ ∧
     (7 : Nat) = 7) ∧
    handle_start_private_chat
        ⟨[("s", ⟨7, "A", "alice", "d", "t"⟩)],
         [⟨7, "sock", "A", "alice", "d", "t"⟩], [], []⟩ "s" "alice" =
      (⟨[("s", ⟨7, "A", "alice", "d", "t"⟩)],
        [⟨7, "sock", "A", "alice", "d", "t"⟩], [], []⟩,
       some (.chatError "self_chat")) :=
  ⟨⟨by decide, by decide, by decide, rfl⟩,
   start_private_chat_self_rejected
     ⟨[("s", ⟨7, "A", "alice", "d", "t"⟩)],
      [⟨7, "sock", "A", "alice", "d", "t"⟩], [], []⟩ "s" "alice"
     ⟨7, "A", "alice", "d", "t"⟩ ⟨7, "sock", "A", "alice", "d", "t"⟩
     (by decide) (by decide) (by decide) rfl⟩

/-- C7 counterexample: a call supplying *both* a broadcast message id and a
private message id is not rejected — `if message_id:` wins, a general
favorite row is inserted (with the private id silently ignored) and the
call reports success. -/
theorem add_both_ids_counterexample :
    add_to_favorites ⟨[], 1⟩ 7 (some 1) (some 2) (some "c") =
      (.ok 1, ⟨[⟨1, 7, some 1, none, some "c"⟩], 2⟩) := by
  rfl

/-- C7 amended: `add_to_favorites` rejects (with `no_message_id`, inserting
nothing) only the call in which *neither* id is truthy; when a broadcast
message id is supplied it takes precedence regardless of whether a private
message id is also supplied: a general favorite row is inserted with the
private id discarded. -/
theorem add_to_favorites_dispatch
    (db : FavDB) (uid : Nat) (mid pmid : Option Nat) (cid : Option String)
    (hmid : pyTruthyNat mid = true)
    (hnoconf : db.favorites.any (fun r =>
        r.user_id == uid && r.message_id == mid) = false) :
    add_to_favorites db uid mid pmid cid =
      (.ok db.nextFavId,
       ⟨db.favorites ++ [⟨db.nextFavId, uid, mid, none, cid⟩],
        db.nextFavId + 1⟩) ∧
    (∀ db2 : FavDB, ∀ uid2 : Nat, ∀ cid2 : Option String,
     ∀ m p : Option Nat, pyTruthyNat m = false → pyTruthyNat p = false →
      add_to_favorites db2 uid2 m p cid2 = (.noMessageId, db2)) := by
  constructor
  · rw [add_to_favorites, if_pos hmid, if_neg (by simp [hnoconf])]
  · intro db2 uid2 cid2 m p hm hp
    rw [add_to_favorites, if_neg (by simp [hm]), if_neg (by simp [hp])]

/-- Witness for C7: a truthy broadcast id together with a private id on an
empty table. -/
theorem add_to_favorites_dispatch_witness :
    (pyTruthyNat (some 1) = true ∧
     (FavDB.mk [] 1).favorites.any (fun r =>
        r.user_id == 7 && r.message_id == some 1) = false) ∧
    (add_to_favorites ⟨[], 1⟩ 7 (some 1) (some 2) (some "c") =
      (.ok 1, ⟨[⟨1, 7, some 1, none, some "c"⟩], 2⟩) ∧
     add_to_favorites ⟨[], 1⟩ 7 none none (some "c") =
      (.noMessageId, ⟨[], 1⟩)) :=
  ⟨⟨by decide, by decide⟩,
   ⟨(add_to_favorites_dispatch ⟨[], 1⟩ 7 (some 1) (some 2) (some "c")
       (by decide) (by decide)).1,
    (add_to_favorites_dispatch ⟨[], 1⟩ 7 (some 1) (some 2) (some "c")
       (by decide) (by decide)).2 ⟨[], 1⟩ 7 (some "c") none none
       (by decide) (by decide)⟩⟩

/-- C8: favorites add/remove are idempotent in effect: removing a
non-existent `(user, message)` favorite completes normally reporting zero
rows deleted (`False`) with the table unchanged, and adding the same
`(user, message)` favorite twice yields a success then the
`already_favorite` conflict, leaving exactly one matching row. -/
theorem favorites_idempotent
    (db : FavDB) (uid m : Nat) (hm : m ≠ 0)
    (habsent : db.favorites.any (fun r =>
        r.user_id == uid && r.message_id == some m) = false) :
    remove_from_favorites db uid (some m) none = (false, db) ∧
    (add_to_favorites db uid (some m) none none).1 = .ok db.nextFavId ∧
    add_to_favorites (add_to_favorites db uid (some m) none none).2
        uid (some m) none none =
      (.alreadyFavorite, (add_to_favorites db uid (some m) none none).2) ∧
    ((add_to_favorites db uid (some m) none none).2.favorites.filter
        (fun r => r.user_id == uid && r.message_id == some m)).length =
      1 := by
  have htruthy : pyTruthyNat (some m) = true := by
    simp [pyTruthyNat, hm]
  have hfilter : db.favorites.filter (fun r =>
      !(r.user_id == uid && r.message_id == some m)) = db.favorites := by
    rw [List.filter_eq_self]
    intro a ha
    have := (List.any_eq_false.mp habsent) a ha
    simp only [Bool.not_eq_true] at this
    simp [this]
  have hdb1 : (add_to_favorites db uid (some m) none none).2 =
      ⟨db.favorites ++ [⟨db.nextFavId, uid, some m, none, none⟩],
       db.nextFavId + 1⟩ := by
    rw [add_to_favorites, if_pos htruthy, if_neg (by simp [habsent])]
  have hmatch : db.favorites.filter (fun r =>
      r.user_id == uid && r.message_id == some m) = [] := by
    rw [List.filter_eq_nil_iff]
    intro a ha
    have := (List.any_eq_false.mp habsent) a ha
    simpa using this
  refine ⟨?_, ?_, ?_, ?_⟩
  · rw [remove_from_favorites, if_pos htruthy]
    simp only [hfilter]
    simp [Nat.lt_irrefl]
  · rw [add_to_favorites, if_pos htruthy, if_neg (by simp [habsent])]
  · have hvio : (add_to_favorites db uid (some m) none none).2.favorites.any
        (fun r => r.user_id == uid && r.message_id == some m) = true := by
      rw [hdb1]
      simp
    generalize hg : (add_to_favorites db uid (some m) none none).2 = db1
      at hvio ⊢
    rw [add_to_favorites, if_pos htruthy, if_pos hvio]
  · rw [hdb1]
    simp only [List.filter_append, hmatch, List.nil_append]
    simp

/-- Witness for C8: user `7` and broadcast message `5` on an empty
favorites table. -/
theorem favorites_idempotent_witness :
    ((5 : Nat) ≠ 0 ∧
     (FavDB.mk [] 1).favorites.any (fun r =>
        r.user_id == 7 && r.message_id == some 5) = false) ∧
    (remove_from_favorites ⟨[], 1⟩ 7 (some 5) none = (false, ⟨[], 1⟩) ∧
     (add_to_favorites ⟨[], 1⟩ 7 (some 5) none none).1 = .ok 1 ∧
     add_to_favorites (add_to_favorites ⟨[], 1⟩ 7 (some 5) none none).2
        7 (some 5) none none =
      (.alreadyFavorite, (add_to_favorites ⟨[], 1⟩ 7 (some 5) none none).2) ∧
     ((add_to_favorites ⟨[], 1⟩ 7 (some 5) none none).2.favorites.filter
        (fun r => r.user_id == 7 && r.message_id == some 5)).length = 1) :=
  ⟨⟨by decide, by decide⟩,
   favorites_idempotent ⟨[], 1⟩ 7 5 (by decide) (by decide)⟩

/-- `find?` by room key commutes with a key-preserving map. -/
theorem find?_key_map (g : String × List String → String × List String)
    (hg : ∀ p, (g p).1 = p.1) (l : Rooms) (cid : String) :
    List.find? (fun p => p.1 == cid) (l.map g) =
      (List.find? (fun p => p.1 == cid) l).map g := by
  induction l with
  | nil => rfl
  | cons q qs ih =>
    by_cases hq : (q.1 == cid) = true
    · have hq' : ((g q).1 == cid) = true := by rw [hg q]; exact hq
      rw [List.map_cons,
          @List.find?_cons_of_pos _ (fun p => p.1 == cid) (g q)
            (List.map g qs) hq',
          @List.find?_cons_of_pos _ (fun p => p.1 == cid) q qs hq]
      rfl
    · have hq' : ¬((g q).1 == cid) = true := by rw [hg q]; exact hq
      rw [List.map_cons,
          @List.find?_cons_of_neg _ (fun p => p.1 == cid) (g q)
            (List.map g qs) hq',
          @List.find?_cons_of_neg _ (fun p => p.1 == cid) q qs hq]
      exact ih

/-- Joining appends the connection id to the end of the room's list (and
creates the room when absent). -/
theorem roomMembers_join (rooms : Rooms) (cid sid : String) :
    roomMembers (joinRoom rooms cid sid) cid =
      roomMembers rooms cid ++ [sid] := by
  rw [joinRoom]
  by_cases h : rooms.any (fun p => p.1 == cid) = true
  · rw [if_pos h]
    have hg : ∀ p : String × List String,
        ((if (p.1 == cid) = true then (p.1, p.2 ++ [sid]) else p)).1 =
          p.1 := by
      intro p
      by_cases hp : (p.1 == cid) = true
      · rw [if_pos hp]
      · rw [if_neg hp]
    obtain ⟨q, hqmem, hq⟩ := List.any_eq_true.mp h
    have hsome : (rooms.find? (fun p => p.1 == cid)).isSome :=
      List.find?_isSome.mpr ⟨q, hqmem, hq⟩
    obtain ⟨r, hr⟩ := Option.isSome_iff_exists.mp hsome
    have hrk := List.find?_some hr
    rw [roomMembers, roomMembers,
        find?_key_map (fun p => if (p.1 == cid) = true
          then (p.1, p.2 ++ [sid]) else p) hg rooms cid, hr]
    simp only [Option.map_some', Option.getD_some, if_pos hrk]
  · rw [if_neg h]
    have hfind : rooms.find? (fun p => p.1 == cid) = none := by
      rw [List.find?_eq_none]
      intro x hx
      have := (List.any_eq_false.mp (Bool.of_not_eq_true h)) x hx
      simp_all
    rw [roomMembers, roomMembers, List.find?_append, hfind]
    simp

/-- Leaving erases one occurrence of the connection id from the room's
list. -/
theorem roomMembers_leave (rooms : Rooms) (cid sid : String) :
    roomMembers (leaveRoom rooms cid sid) cid =
      (roomMembers rooms cid).erase sid := by
  rw [leaveRoom]
  have hg : ∀ p : String × List String,
      ((if (p.1 == cid && p.2.contains sid) = true
        then (p.1, p.2.erase sid) else p)).1 = p.1 := by
    intro p
    by_cases hp : (p.1 == cid && p.2.contains sid) = true
    · rw [if_pos hp]
    · rw [if_neg hp]
  rw [roomMembers, roomMembers,
      find?_key_map (fun p => if (p.1 == cid && p.2.contains sid) = true
        then (p.1, p.2.erase sid) else p) hg rooms cid]
  cases hr : rooms.find? (fun p => p.1 == cid) with
  | none => simp
  | some q =>
    have hqk := List.find?_some hr
    simp only [Option.map_some', Option.getD_some]
    by_cases hc : q.2.contains sid = true
    · rw [if_pos (by rw [hqk, hc]; rfl)]
    · have hmem : sid ∉ q.2 := fun hm =>
        absurd (List.elem_eq_true_of_mem hm) (by simpa using hc)
      rw [if_neg (by simp [hc]; exact fun _ => hmem),
          List.erase_of_not_mem hmem]

/-- C9 counterexample: the in-memory room structure is a map to Python
*lists*, not sets — joining room `"c"` twice from the same connection
duplicates the entry, and one leave removes only one occurrence, so the
connection is still a member afterwards. -/
theorem rooms_duplicate_counterexample :
    handle_join_private_chat
        (handle_join_private_chat [] "s" (some "c")) "s" (some "c") =
      [("c", ["s", "s"])] ∧
    handle_join_private_chat [] "s" (some "c") = [("c", ["s"])] ∧
    handle_leave_private_chat [("c", ["s", "s"])] "s" (some "c") =
      [("c", ["s"])] := by
  refine ⟨rfl, rfl, rfl⟩

/-- C9 amended: `rooms` maps each room id to a *list* of connection ids:
every join appends one occurrence (so a second join adds a duplicate
instead of leaving the membership unchanged), and a leave removes exactly
one occurrence (so after joining twice and leaving once the connection is
still a member). -/
theorem rooms_join_leave_counts (rooms : Rooms) (cid sid : String) :
    (roomMembers (joinRoom rooms cid sid) cid).count sid =
      (roomMembers rooms cid).count sid + 1 ∧
    (roomMembers (leaveRoom rooms cid sid) cid).count sid =
      (roomMembers rooms cid).count sid - 1 ∧
    sid ∈ roomMembers
      (leaveRoom (joinRoom (joinRoom rooms cid sid) cid sid) cid sid)
      cid := by
  refine ⟨?_, ?_, ?_⟩
  · rw [roomMembers_join]
    simp
  · rw [roomMembers_leave, List.count_erase_self]
  · rw [roomMembers_leave, roomMembers_join, roomMembers_join]
    rw [← List.count_pos_iff, List.count_erase_self]
    simp

/-- C10: for every `toggle_favorite` request from a registered connection
carrying a truthy message id, the emitted `favorite_toggled` event echoes
the requested `is_favorite` flag verbatim — the statement quantifies over
every favorites table, so it covers in particular the states in which the
underlying `add_to_favorites` fails with `already_favorite` (or the remove
deletes nothing): the echo never reflects the operation's outcome. -/
theorem toggle_favorite_echoes_request
    (st : ToggleState) (sid : String) (mid : Nat) (cid : Option String)
    (fav : Bool) (u : ClientData)
    (hu : st.users.lookup sid = some u) (hmid : mid ≠ 0) :
    (handle_toggle_favorite st sid (some mid) cid fav).2 =
      some ⟨mid, fav⟩ := by
  rw [handle_toggle_favorite, hu]
  simp only [pyTruthyNat]
  rw [if_neg (by simp [hmid])]
  rfl

/-- Witness for C10: message `5` is already a favorite of user `7`, the
request still says `is_favorite := true`, and the echoed event repeats
`true` even though the add fails with `already_favorite`. -/
theorem toggle_favorite_echoes_request_witness :
    ((ToggleState.mk [("s", ⟨7, "A", "a", "d", "t"⟩)]
        ⟨[⟨1, 7, some 5, none, some "general"⟩], 2⟩).users.lookup "s" =
      some ⟨7, "A", "a", "d", "t"⟩ ∧
     (5 : Nat) ≠ 0 ∧
     (add_to_favorites ⟨[⟨1, 7, some 5, none, some "general"⟩], 2⟩ 7
        (some 5) none (some "general")).1 = .alreadyFavorite) ∧
    (handle_toggle_favorite
        ⟨[("s", ⟨7, "A", "a", "d", "t"⟩)],
         ⟨[⟨1, 7, some 5, none, some "general"⟩], 2⟩⟩
        "s" (some 5) (some "general") true).2 = some ⟨5, true⟩ :=
  ⟨⟨by decide, by decide, by decide⟩,
   toggle_favorite_echoes_request
     ⟨[("s", ⟨7, "A", "a", "d", "t"⟩)],
      ⟨[⟨1, 7, some 5, none, some "general"⟩], 2⟩⟩
     "s" 5 (some "general") true ⟨7, "A", "a", "d", "t"⟩
     (by decide) (by decide)⟩

end Messka
